import Mathlib

/-!
Shallow embedding of the template-expansion / response-extraction core of
this repository (the `prompt_template` module: `callExpander`,
`expandTemplate`, `categoryPrefix`, `runTemplate`), together with proofs
about the claims on that code.

Modelling conventions:
* JS strings are sequences of code units; we model them with Lean `String`
  but implement every operation the code uses (slice, trim, startsWith,
  endsWith, indexOf, split) over `String.toList`, so that all reasoning is
  plain list reasoning.
* `undefined` is modelled with `Option`; JS `??` is `Option.orElse` (`<|>`),
  and JS truthiness of a string/option is made explicit where the code
  relies on it.
* The script body given to the external `evalPrompt` (module `./template`,
  an external collaborator) is modelled by the observable sequence of
  callback invocations it performs: emitted text segments (with embedded
  `env.<name>` reads), `console.log` lines, and a thrown exception.
* External collaborators (fenced-block parser, host path resolution,
  file system, `stringToPos`) are parameters of the model (`Externals`).
* The mutable Markdown trace is built by pure string concatenation in the
  same order as the code.
-/

namespace GenAI

/-! ### JS-style string primitives (over `toList`) -/

/-- JS `slice(n)`: drop the first `n` code units. -/
def jsDrop (s : String) (n : Nat) : String := String.mk (s.toList.drop n)

/-- Number of code units. -/
def jsLength (s : String) : Nat := s.toList.length

/-- JS `String.prototype.startsWith`. -/
def jsStartsWith (s pre : String) : Bool := pre.toList.isPrefixOf s.toList

/-- JS `String.prototype.endsWith`. -/
def jsEndsWith (s suf : String) : Bool := suf.toList.isSuffixOf s.toList

/-- JS `String.prototype.trim` (whitespace at both ends). -/
def jsTrim (s : String) : String :=
  String.mk (((s.toList.dropWhile Char.isWhitespace).reverse.dropWhile
    Char.isWhitespace).reverse)

/-- Split a list at the first occurrence of `pat`, returning the part before
and the part after the occurrence (JS `indexOf` + `slice`). An empty
pattern matches at position 0, as in JS. -/
def splitAtSub (pat : List Char) : List Char → Option (List Char × List Char)
  | [] => if pat.isEmpty then some ([], []) else none
  | c :: t =>
      if pat.isPrefixOf (c :: t) then some ([], (c :: t).drop pat.length)
      else (splitAtSub pat t).map (fun p => (c :: p.1, p.2))

/-- JS `String.prototype.includes`. -/
def containsStr (s pat : String) : Bool := (splitAtSub pat.toList s.toList).isSome

/-- JS `String.prototype.replace` with a plain-string pattern: replace the
first occurrence. (The `$`-escape feature of JS replacement strings plays
no role in the code's usage and is not modelled.) -/
def replaceFirst (s pat rep : String) : String :=
  match splitAtSub pat.toList s.toList with
  | some (b, a) => String.mk b ++ rep ++ String.mk a
  | none => s

/-- The backtick character (written without a character literal). -/
def btChar : Char := "`".front

/-- JS regex `\w`: `[A-Za-z0-9_]`. -/
def jsWordChar (c : Char) : Bool := c.isAlphanum || c = '_'

/-- JS `padStart(3)` on the decimal rendering of a number. -/
def padStart (n : Nat) (s : String) : String :=
  String.mk (List.replicate (n - jsLength s) ' ') ++ s

/-- Split a character list at every separator (JS `split` semantics:
`""` yields `[""]`, separators at the ends yield empty pieces). -/
def splitChars (p : Char → Bool) : List Char → List (List Char)
  | [] => [[]]
  | x :: xs =>
      match splitChars p xs with
      | [] => [[]]
      | h :: t => if p x then [] :: h :: t else (x :: h) :: t

/-- Lines split by `/\r?\n/`. -/
def splitLines (s : String) : List String :=
  ((splitChars (fun c => c = '\n') s.toList).map String.mk).map
    (fun l => if jsEndsWith l "\r" then String.mk l.toList.dropLast else l)

/-! ### Source helpers (`prompt_template` module) -/

/-- Source `trimNewlines`: strip leading and trailing newline characters. -/
def trimNewlines (s : String) : String :=
  String.mk (((s.toList.dropWhile (fun c => c = '\n')).reverse.dropWhile
    (fun c => c = '\n')).reverse)

/-- The 15-backtick fence used by the trace builder. -/
def fence : String := "```````````````"

/-- Source `fenceMD` (the source's default `contentType` is `"markdown"`; call
sites pass it explicitly here). -/
def fenceMD (t : String) (contentType : String) : String :=
  "\n" ++ fence ++ contentType ++ "\n" ++ trimNewlines t ++ "\n" ++ fence ++ "\n"

/-- Source `numberedFenceMD` (default `contentType` `"js"` passed explicitly). -/
def numberedFenceMD (t : String) (contentType : String) : String :=
  fenceMD (String.intercalate "\n"
    ((splitLines t).enum.map
      (fun p => padStart 3 (toString (p.1 + 1)) ++ ": " ++ p.2))) contentType

/-- Source `prefixes`: `'foo.bar.baz' -> ['foo', 'foo.bar', 'foo.bar.baz']`. -/
def prefixes (w : String) : List String :=
  let words := (splitChars (fun c => c = '.') w.toList).map String.mk
  (List.range words.length).map
    (fun i => String.intercalate "." (words.take (i + 1)))

/-! ### The variable binding table and the expander -/

/-- The variable binding table (`ExpansionVariables`): an ordered name/value
record. We model the string-valued portion that template scripts read;
structured values (file descriptors, lists) built by `fragmentVars` from
external parser data do not take part in any claim. -/
def lookupVar (vars : List (String × String)) (k : String) : Option String :=
  (vars.find? (fun p => p.1 == k)).map (fun p => p.2)

/-- The `env` Proxy `get` handler of `callExpander`: a bound name yields its
value and no error; an unbound name yields `""` together with the one-line
Markdown error appended to the error accumulator. Returns
(value, error text). -/
def envGet (vars : List (String × String)) (name : String) : String × String :=
  match lookupVar vars name with
  | some v => (v, "")
  | none => ("", "-  `env." ++ name ++ "` not defined\n")

/-- One piece of an emitted text segment: a literal, or an `env.<name>`
read interpolated into it. -/
inductive TextPart where
  | lit (s : String)
  | var (name : String)
deriving DecidableEq, Repr

/-- One observable action of an evaluated template script: a `text(body)`
emission, a `console.log` line, or a thrown exception (name, message). -/
inductive ScriptOp where
  | emit (parts : List TextPart)
  | log (msg : String)
  | throwErr (name msg : String)
deriving DecidableEq, Repr

def partVal (vars : List (String × String)) : TextPart → String
  | .lit s => s
  | .var n => (envGet vars n).1

def partErr (vars : List (String × String)) : TextPart → String
  | .lit _ => ""
  | .var n => (envGet vars n).2

/-- The body string passed to the `text` callback: the parts evaluated in
order with `env` reads substituted. -/
def renderBody (vars : List (String × String)) : List TextPart → String
  | [] => ""
  | p :: ps => partVal vars p ++ renderBody vars ps

/-- The binding errors accumulated while the body was evaluated, in read
order. -/
def renderErrs (vars : List (String × String)) : List TextPart → String
  | [] => ""
  | p :: ps => partErr vars p ++ renderErrs vars ps

/-- Accumulators of `callExpander` while the script runs. -/
structure ExecState where
  promptText : String
  errors : String
  logs : String
deriving DecidableEq, Repr

/-- Run the script ops as `evalPrompt` drives the `callExpander` callbacks:
`text(body)` appends the newline-trimmed body plus a blank line, then
checks the body for the designated error marker (`vars.error`) and throws
`Error(message-after-marker-up-to-newline)` if present; `console.log`
appends to the log buffer; a thrown exception stops evaluation. Returns
the final accumulators and the exception, if one was thrown. -/
def execOps (vars : List (String × String)) (marker : String) :
    List ScriptOp → ExecState → ExecState × Option (String × String)
  | [], st => (st, none)
  | .log m :: rest, st =>
      execOps vars marker rest { st with logs := st.logs ++ m ++ "\n" }
  | .throwErr n m :: _rest, st => (st, some (n, m))
  | .emit parts :: rest, st =>
      let body := renderBody vars parts
      let st := { st with
        errors := st.errors ++ renderErrs vars parts,
        promptText := st.promptText ++ trimNewlines body ++ "\n\n" }
      match splitAtSub marker.toList body.toList with
      | some p =>
          (st, some ("Error", String.mk (p.2.takeWhile (fun c => c != '\n'))))
      | none => execOps vars marker rest st

/-- Result of `callExpander`. -/
structure ExpanderResult where
  logs : String
  errors : String
  success : Bool
  text : String
deriving DecidableEq, Repr

/-- The error line the catch handler of `callExpander` appends for a
thrown exception (`-  <name>: <message>`; the engine-dependent
line/column locator suffix is not modelled). -/
def errLine (name msg : String) : String :=
  "-  " ++ name ++ ": " ++ msg ++ "\n"

/-- A prompt template: identifier, title, raw script source (used by the
trace), the script's observable behavior (`jsOps`, the meaning of
`evalPrompt r.jsSource`), parameter overrides, system-template list and
categories. -/
structure PromptTemplate where
  id : String
  title : String
  jsSource : String
  jsOps : List ScriptOp
  model : Option String := none
  temperature : Option ℚ := none
  maxTokens : Option Nat := none
  system : Option (List String) := none
  categories : Option (List String) := none
deriving DecidableEq, Repr

/-- Source `callExpander`: run the template script against the binding table.
`vars.error` is the designated error marker; reading it off the raw table
follows JS semantics (`undefined` interpolates as `"undefined"` would in
`indexOf`, though every real table defines it). A thrown exception turns
into `success = false` plus an error line `-  <name>: <message>`; the
stack-derived line/column locator of the source depends on the JS engine
and is not part of the model. -/
def theMarker (vars : List (String × String)) : String :=
  (lookupVar vars "error").getD "undefined"

def callExpander (r : PromptTemplate) (vars : List (String × String)) :
    ExpanderResult :=
  let res := execOps vars (theMarker vars) r.jsOps ⟨"", "", ""⟩
  match res.2 with
  | none => ⟨res.1.logs, res.1.errors, true, res.1.promptText⟩
  | some e =>
      ⟨res.1.logs, res.1.errors ++ errLine e.1 e.2, false, res.1.promptText⟩

/-! ### Project, fragment, and the system-prompt resolver -/

/-- Fixed global defaults of the module. -/
def defaultModel : String := "gpt-4"

/-- The default temperature 0.2 (the literal rational 1/5, normalized). -/
def defaultTemperature : ℚ := ⟨1, 5, by decide, Nat.coprime_one_left 5⟩

def defaultMaxTokens : Nat := 800

/-- The project-level configuration object (`project.coarchJson`), of which
the code reads only the optional `model`. -/
structure CoarchJson where
  model : Option String := none
deriving DecidableEq, Repr

/-- The project: the template store (`getTemplate`) plus configuration.
The source reaches it through `fragment.file.project` / `fragment.project`;
we pass it alongside the fragment. -/
structure Project where
  templates : List PromptTemplate
  coarchJson : CoarchJson
deriving Repr

def Project.getTemplate (p : Project) (id : String) : Option PromptTemplate :=
  p.templates.find? (fun t => t.id == id)

/-- An outbound reference of a fragment (`fragment.references[i]`). -/
structure Reference where
  name : String
  filename : String
deriving DecidableEq, Repr

/-- A fragment, as far as this core reads it: its owning file's name
(`fragment.file.filename`), its references, its end position, and the
inline comment attributes the external parser reports for it
(`commentAttributes(fragment)`). -/
structure Fragment where
  filename : String
  references : List Reference
  endPos : Nat × Nat
  attributes : List (String × String)
deriving DecidableEq, Repr

def commentAttributes (f : Fragment) : List (String × String) := f.attributes

/-- JS falsiness of an optional string (`undefined` or `""`). -/
def jsFalsyS (o : Option String) : Bool :=
  match o with
  | none => true
  | some s => s == ""

/-- Decimal rendering used when the trace interpolates a number; JS renders
`0.2` as `"0.2"` — the numeral text is a diagnostic detail no claim
depends on, so a fixed exact rendering of the rational is used. -/
def showQ (q : ℚ) : String :=
  if q.den = 1 then toString q.num
  else toString q.num ++ "/" ++ toString q.den

/-- JS `${t || ""}` for a number: `0` is falsy and renders empty. -/
def dispTemp (q : ℚ) : String := if q = 0 then "" else showQ q

def dispNat (n : Nat) : String := if n = 0 then "" else toString n

/-- Result of `categoryPrefix` (named block of trace info plus the inline
prompt text gathered from matching comment attributes). -/
structure CatResult where
  info : String
  text : String
deriving DecidableEq, Repr

/-- The static help blob `categoryPrefix` puts into the trace. -/
def categoryHelp : String :=
  "\nAdded as comment at the end of a fragment: \n\n```markdown\nLorem ipsum...\n\n<!-- @prompt.NAME \nYou are concise.\n!-->\n```\n        \n\n"

/-- One step of the `categoryPrefix` loop over candidate attribute keys,
with its `used` dedup set. -/
def catStep (attrs : List (String × String))
    (acc : List String × String × String) (pref : String) :
    List String × String × String :=
  if acc.1.contains pref then acc
  else
    match lookupVar attrs pref with
    | none => (pref :: acc.1, acc.2.1 ++ "-   **" ++ pref ++ "** missing\n", acc.2.2)
    | some v =>
        (pref :: acc.1,
         acc.2.1 ++ "-   **" ++ pref ++ "**)\n" ++ trimNewlines v ++ "\n",
         acc.2.2 ++ v)

/-- Source `categoryPrefix` (name suffixed here): collect inline `@prompt`
comment attributes selected by the template's categories. The guard is the
JS truthiness of `template.categories?.length || attrs["@prompt"]`. -/
def categoryPrefixMD (template : PromptTemplate) (attrs : List (String × String)) :
    CatResult :=
  let cats := template.categories.getD []
  if cats.length > 0 || !jsFalsyS (lookupVar attrs "@prompt") then
    let prefs :=
      if cats.length > 0 then (cats.map (fun s => prefixes ("@prompt." ++ s))).flatten
      else ["@prompt"]
    let r := prefs.foldl (catStep attrs)
      ([], "\n## Inline prompts\n" ++ categoryHelp, "")
    ⟨r.2.1 ++ "\n", r.2.2⟩
  else ⟨"", ""⟩

/-- The `varName` table of `expandTemplate`: value → first key bound to it
(`if (!varName[v]) varName[v] = k`, with JS falsiness of the stored key). -/
def setRecord (r : List (String × String)) (k v : String) : List (String × String) :=
  if r.any (fun p => p.1 == k) then
    r.map (fun p => if p.1 == k then (k, v) else p)
  else r ++ [(k, v)]

def buildVarName (entries : List (String × String)) : List (String × String) :=
  entries.foldl
    (fun acc p => if jsFalsyS (lookupVar acc p.2) then setRecord acc p.2 p.1 else acc)
    []

/-- JS `varName[v] != k` (a loose comparison; an absent entry differs from
every key). -/
def varNameDiffers (vn : List (String × String)) (k v : String) : Bool :=
  match lookupVar vn v with
  | some k2 => k2 != k
  | none => true

/-- Source `isComplex` of `expandTemplate`, restricted to the string-valued
entries the model carries. -/
def isComplex (vn : List (String × String)) (k v : String) : Bool :=
  if varNameDiffers vn k v then false
  else jsLength v > 40 || containsStr (jsTrim v) "\n" || containsStr v "`"

/-- Source `traceVars` of `expandTemplate`: the Variables trace section. -/
def traceVars (entries : List (String × String)) : String :=
  let vn := buildVarName entries
  let simple := String.join (entries.map (fun p =>
    if isComplex vn p.1 p.2 then ""
    else if varNameDiffers vn p.1 p.2 then
      "-   env.**" ++ p.1 ++ "**: same as **" ++
        ((lookupVar vn p.2).getD "undefined") ++ "**\n\n"
    else "-   env.**" ++ p.1 ++ "**: `" ++ p.2 ++ "`\n\n"))
  let complex := String.join (entries.map (fun p =>
    if isComplex vn p.1 p.2 then
      "-   env.**" ++ p.1 ++ "**" ++ fenceMD p.2 "" ++ "\n"
    else ""))
  "\n\n## Variables\n" ++ "Variables are referenced through `env.NAME` in prompts.\n\n"
    ++ simple ++ complex

/-- Head of the trace (`# Prompt trace`, errors placeholder, template
identity, numbered source listing). -/
def traceHeader (template : PromptTemplate) : String :=
  "\n# Prompt trace\n\n@@errors@@\n\n## Prompt template \"" ++ template.title
    ++ "\" (`" ++ template.id ++ "`)\n" ++ numberedFenceMD template.jsSource "js"
    ++ "\n\n"

/-- Accumulator of the system-template loop of `expandTemplate`. -/
structure SysLoopState where
  trace : String
  systemText : String
  model : Option String
  temperature : Option ℚ
  max_tokens : Option Nat
deriving DecidableEq, Repr

/-- Per-template body of the system loop: expand the system template with
the same bindings, append its text plus a newline, merge parameter
overrides with `??`, and add its trace subsection. `name` is the
`systemTemplate` variable (reassigned to `"system"` by the fallback). -/
def sysBody (vars : List (String × String)) (name : String)
    (system : PromptTemplate) (st : SysLoopState) : SysLoopState :=
  let sysex := (callExpander system vars).text
  { trace := st.trace ++ "###  template: `" ++ name ++ "`\n"
      ++ (match system.model with
          | some m => if m != "" then "-  model: `" ++ m ++ "`\n" else ""
          | none => "")
      ++ (match system.temperature with
          | some t => "-  temperature: " ++ dispTemp t ++ "\n"
          | none => "")
      ++ (match system.maxTokens with
          | some n => "-  max tokens: " ++ dispNat n ++ "\n"
          | none => "")
      ++ numberedFenceMD system.jsSource "js"
      ++ "#### Expanded system prompt"
      ++ fenceMD sysex "markdown",
    systemText := st.systemText ++ sysex ++ "\n",
    model := st.model <|> system.model,
    temperature := st.temperature <|> system.temperature,
    max_tokens := st.max_tokens <|> system.maxTokens }

/-- The system-template loop. A name that does not resolve adds a trace
error (when the name is truthy); at index 0 it falls back to the canonical
`"system"` template, whose existence is asserted — a failed assertion is
modelled as `none`. -/
def sysLoop (project : Project) (vars : List (String × String)) :
    List String → Nat → SysLoopState → Option SysLoopState
  | [], _, st => some st
  | name :: rest, i, st =>
      match project.getTemplate name with
      | some system => sysLoop project vars rest (i + 1) (sysBody vars name system st)
      | none =>
          let st := { st with trace := st.trace ++
            (if name != "" then "\n** error: `" ++ name ++ "` not found\n" else "") }
          if i > 0 then sysLoop project vars rest (i + 1) st
          else
            match project.getTemplate "system" with
            | some system =>
                sysLoop project vars rest (i + 1) (sysBody vars "system" system st)
            | none => none

/-- The list of system-template names: the declared list, with the
canonical `"system"` entry unshifted when absent. -/
def systemsList (template : PromptTemplate) : List String :=
  let systems := template.system.getD []
  if systems.contains "system" then systems else "system" :: systems

/-- Result of `expandTemplate`. -/
structure ExpandResult where
  expanded : String
  errors : String
  trace : String
  success : Bool
  model : String
  temperature : ℚ
  max_tokens : Nat
  systemText : String
deriving DecidableEq, Repr

/-- The trace `expandTemplate` has accumulated when the system loop starts:
header, inline prompts, console output, expanded prompt, variables, the
`@@errors@@` placeholder substituted, and the `## System prompt` heading. -/
def expandTraceBase (template : PromptTemplate) (fragment : Fragment)
    (vars : List (String × String)) : String :=
  let cat := categoryPrefixMD template (commentAttributes fragment)
  let prompt := callExpander template vars
  let trace := traceHeader template ++ cat.info
    ++ "\n## console output\n"
    ++ (if jsLength prompt.logs > 0 then fenceMD prompt.logs "markdown"
        else "> tip: use `console.log()` from prompt.js files")
    ++ "\n## Expanded prompt\n" ++ fenceMD prompt.text "markdown"
    ++ traceVars vars
  replaceFirst trace "@@errors@@" prompt.errors ++ "## System prompt\n"

/-- Source `expandTemplate`: expand the main template, build the trace, resolve
the system templates, and resolve model/temperature/max-token values with
the `??` precedence chain ending in the project configuration (for the
model) and the fixed global defaults. -/
def expandTemplate (project : Project) (template : PromptTemplate)
    (fragment : Fragment) (vars : List (String × String)) : Option ExpandResult :=
  let cat := categoryPrefixMD template (commentAttributes fragment)
  let prompt := callExpander template vars
  match sysLoop project vars (systemsList template) 0
      ⟨expandTraceBase template fragment vars, "",
        template.model, template.temperature, template.maxTokens⟩ with
  | none => none
  | some st =>
      some { expanded := cat.text ++ "\n" ++ prompt.text
             errors := prompt.errors
             trace := st.trace
             success := prompt.success
             model := (st.model <|> project.coarchJson.model).getD defaultModel
             temperature := st.temperature.getD defaultTemperature
             max_tokens := st.max_tokens.getD defaultMaxTokens
             systemText := st.systemText }

/-! ### `runTemplate`: completion call, response extraction, edit synthesis -/

/-- Edits produced for the caller (`Edits` union of the source). -/
inductive Edits where
  | replace (label filename : String) (range : (Nat × Nat) × (Nat × Nat)) (text : String)
  | createfile (label filename : String) (text : String) (overwrite : Bool)
  | insert (label filename : String) (pos : Nat × Nat) (text : String)
deriving DecidableEq, Repr

/-- One entry of the `fileEdits` record (`before: null` for a new file). -/
structure FileEdit where
  before : Option String
  after : String
deriving DecidableEq, Repr

/-- The `FragmentTransformResponse` record (the `summary` field is optional). -/
structure FragmentTransformResponse where
  edits : List Edits
  fileEdits : List (String × FileEdit)
  trace : String
  text : String
  summary : Option String
deriving DecidableEq, Repr

structure ChatMessage where
  role : String
  content : String
deriving DecidableEq, Repr

/-- The single completion request issued per run. -/
structure ChatRequest where
  model : String
  temperature : ℚ
  max_tokens : Nat
  messages : List ChatMessage
deriving DecidableEq, Repr

/-- Body of a structured `RequestError`. -/
structure RequestErrorBody where
  message : String
  type : String
  code : String
deriving DecidableEq, Repr

/-- What the chat transport throws: a structured `RequestError`, or any
other exception (whose combination with an aborted signal the catch block
reads as a cancellation). -/
inductive ChatError where
  | requestError (status : Nat) (statusText : String) (body : Option RequestErrorBody)
  | other (name msg : String)
deriving DecidableEq, Repr

/-- External collaborators of `runTemplate`: the fenced-block parser and
its renderer (module `./template`), `stringToPos` (module `./parser`),
`host.resolvePath` in its one-argument and `(filename, "..", n)` forms,
and the file system (`fileExists` + `readText`, as one partial map). -/
structure Externals where
  extractFenced : String → List (String × String)
  renderFencedVariables : List (String × String) → String
  stringToPos : String → Nat × Nat
  resolvePath : String → String
  resolvePathRel : String → String → String
  fs : String → Option String

/-- State of the extracted-variables loop: the shared `edits` array, the
`fileEdits` record, the pending links, the summary, and the surviving
`extr.vars` record (entries are deleted as they are consumed). -/
structure ExtractState where
  edits : List Edits
  fileEdits : List (String × FileEdit)
  links : List String
  summary : Option String
  vars : List (String × String)
deriving DecidableEq, Repr

/-- JS `delete record[name]`. -/
def removeKey (vars : List (String × String)) (name : String) :
    List (String × String) :=
  vars.filter (fun p => p.1 != name)

/-- JS `record[k] = v` on the `fileEdits` record: update in place or append. -/
def setFileEdit (r : List (String × FileEdit)) (k : String) (v : FileEdit) :
    List (String × FileEdit) :=
  if r.any (fun p => p.1 == k) then
    r.map (fun p => if p.1 == k then (k, v) else p)
  else r ++ [(k, v)]

/-- The file target named by a `File <n>` entry: the name after the prefix,
trimmed, with a leading `./` stripped. -/
def stripTarget (name : String) : String :=
  let n0 := jsTrim (jsDrop name 5)
  if jsStartsWith n0 "./" then jsDrop n0 2 else n0

/-- One iteration of the `for (const [name, val] of Object.entries(extr.vars))`
loop: `File ` entries are consumed into file edits (create or replace,
depending on file existence) and possibly a pending link; a `SUMMARY`
entry is consumed into the summary. -/
def processEntry (ext : Externals) (fragment : Fragment)
    (st : ExtractState) (nv : String × String) : ExtractState :=
  let name := nv.1
  let val := nv.2
  let st :=
    if jsStartsWith name "File " then
      let n := stripTarget name
      let fn := ext.resolvePathRel fragment.filename n
      let curr := (fragment.references.find?
        (fun r => ext.resolvePath r.filename == fn)).map Reference.filename
      let st := { st with vars := removeKey st.vars name }
      let st :=
        match ext.fs fn with
        | some content =>
            if content != val then
              { st with
                fileEdits := setFileEdit st.fileEdits fn ⟨some content, val⟩,
                edits := st.edits ++
                  [Edits.replace ("Update " ++ fn) fn ((0, 0), ext.stringToPos content) val] }
            else st
        | none =>
            { st with
              fileEdits := setFileEdit st.fileEdits fn ⟨none, val⟩,
              edits := st.edits ++ [Edits.createfile ("Create " ++ fn) fn val true] }
      if jsFalsyS curr && ext.resolvePath fragment.filename != fn then
        { st with links := st.links ++ ["-   [" ++ n ++ "](./" ++ n ++ ")"] }
      else st
    else st
  if name == "SUMMARY" then
    { st with summary := some val, vars := removeKey st.vars name }
  else st

/-- The fence-unwrap regex `/^(```+)(\w*)\n/`: on a match, the length of
the whole match and the length of the backtick run. The run is the whole
leading run of backticks (`\w` cannot match a backtick, so the greedy
group takes them all), and the regex requires at least three of them. -/
def fenceOpen (s : String) : Option (Nat × Nat) :=
  let l := s.toList
  let bt := l.takeWhile (fun c => c = btChar)
  if bt.length ≥ 3 then
    let rest := l.drop bt.length
    let w := rest.takeWhile jsWordChar
    match rest.drop w.length with
    | '\n' :: _ => some (bt.length + w.length + 1, bt.length)
    | _ => none
  else none

/-- The local post-processing of the final text (source lines after the
extraction loop): single-leftover-variable selection, trim, and
whole-response fence unwrapping. In the source this value is assigned only
to the local `text` variable. -/
def finalizeText (text0 : String) (vars : List (String × String)) : String :=
  let text1 :=
    match vars with
    | [nv] => nv.2
    | _ => text0
  let text2 := jsTrim text1
  match fenceOpen text2 with
  | some m =>
      if jsEndsWith text2 (String.join (List.replicate m.2 "`")) then
        jsTrim (String.mk ((text2.toList.drop m.1).take (jsLength text2 - m.2 - m.1)))
      else text2
  | none => text2

/-- The trace built by `runTemplate` before the failure check and the
completion call: the `## Final prompt` section with the resolved
parameters and the expanded prompt. -/
def finalPromptTrace (er : ExpandResult) : String :=
  er.trace ++ "\n\n## Final prompt\n\n"
    ++ (if er.model != "" then "-  model: `" ++ er.model ++ "`\n" else "")
    ++ "-  temperature: " ++ dispTemp er.temperature ++ "\n"
    ++ "-  max tokens: " ++ dispNat er.max_tokens ++ "\n"
    ++ fenceMD er.expanded "markdown"

/-- The single completion request of a run. -/
def mkRequest (er : ExpandResult) : ChatRequest :=
  ⟨er.model, er.temperature, er.max_tokens,
    [⟨"system", er.systemText⟩, ⟨"user", er.expanded⟩]⟩

/-- The trace section the catch block appends for a structured request
error. -/
def requestErrorTrace (status : Nat) (statusText : String)
    (body : Option RequestErrorBody) : String :=
  "## Request error\n\n"
    ++ (match body with
        | some b => "\n> " ++ b.message ++ "\n\n-  type: `" ++ b.type
            ++ "`\n-  code: `" ++ b.code ++ "`\n"
        | none => "")
    ++ "-   status: `" ++ toString status ++ "`, " ++ statusText ++ "\n"

/-- The trace section the catch block appends for a cancellation. -/
def cancelTrace : String :=
  "## Request cancelled\n            \nThe user requested to cancel the request.\n"

/-- How a run ends: with a returned response, or with the exception
re-raised to the caller. -/
inductive RunOutcome where
  | result (r : FragmentTransformResponse)
  | thrown (e : ChatError)
deriving DecidableEq, Repr

/-- The outcome of a run together with the sequence of partial responses
passed to `options.infoCb` (instrumented so the callback contract can be
stated; the callback itself is the caller's). -/
structure RunOutput where
  outcome : RunOutcome
  infoCbs : List FragmentTransformResponse
deriving DecidableEq, Repr

/-- Source `runTemplate`. The binding table `vars` stands for the result of
`fragmentVars` (built from external parser data) with the optional
clipboard binding already applied; `chat` is `getChatCompletions`
(returning the completion text or throwing), `aborted` the state of the
cancellation signal observed by the catch block; `initToken` and the
`console.log({name})` debug line are external effects with no bearing on
the claims. `none` models the failed `assert` for a missing canonical
system template. -/
def runTemplate (ext : Externals) (project : Project)
    (template : PromptTemplate) (fragment : Fragment)
    (vars : List (String × String))
    (chat : ChatRequest → Except ChatError String) (aborted : Bool) :
    Option RunOutput :=
  match expandTemplate project template fragment vars with
  | none => none
  | some er =>
      let trace := finalPromptTrace er
      if er.success = false then
        -- if the expansion failed, show the user the trace
        some ⟨.result ⟨[], [], trace,
          "# Template failed\nSee info below.\n" ++ trace, none⟩, []⟩
      else
        let waiting : FragmentTransformResponse :=
          ⟨[], [], trace, "> Waiting for response...", none⟩
        match chat (mkRequest er) with
        | .error e =>
            match e with
            | .requestError status statusText body =>
                let trace := trace ++ requestErrorTrace status statusText body
                some ⟨.thrown e,
                  [waiting, ⟨[], [], trace, "Request error", none⟩]⟩
            | .other _ _ =>
                if aborted then
                  let trace := trace ++ cancelTrace
                  some ⟨.thrown e,
                    [waiting, ⟨[], [], trace, "Request cancelled", none⟩]⟩
                else some ⟨.thrown e, [waiting]⟩
        | .ok text =>
            let trace := trace ++ "\n\n## AI Output\n\n" ++ fenceMD text "markdown"
            let extr := ext.extractFenced text
            let trace := trace ++ "\n\n### Extracted Variables\n\n"
              ++ ext.renderFencedVariables extr ++ "\n"
            let st := extr.foldl (processEntry ext fragment)
              ⟨[], [], [], none, extr⟩
            -- the post-processing reassigns only the local `text` variable;
            -- the response object keeps the raw completion text
            let _localText := finalizeText text st.vars
            let edits := st.edits ++
              (if st.links.length > 0 then
                [Edits.insert template.title fragment.filename fragment.endPos
                  ("\n\n" ++ String.intercalate "\n" st.links)]
               else [])
            some ⟨.result ⟨edits, st.fileEdits, trace, text, st.summary⟩, [waiting]⟩

/-! ### Script-shape predicates (used to state claims about clean runs) -/

/-- The script throws no explicit exception of its own. -/
def noThrow (ops : List ScriptOp) : Bool :=
  ops.all (fun op => match op with
    | .throwErr _ _ => false
    | _ => true)

/-- No emitted body contains the designated error marker. -/
def markerFree (vars : List (String × String)) (ops : List ScriptOp) : Bool :=
  ops.all (fun op => match op with
    | .emit parts =>
        (splitAtSub (theMarker vars).toList (renderBody vars parts).toList).isNone
    | _ => true)

/-- The binding errors a fully executed script accumulates, in order. -/
def opsErrors (vars : List (String × String)) : List ScriptOp → String
  | [] => ""
  | .emit parts :: rest => renderErrs vars parts ++ opsErrors vars rest
  | _ :: rest => opsErrors vars rest

/-! ### Specification-level view of system-template resolution -/

/-- First non-`undefined` value in a scan (the effect of the `??` chain
threaded through the system loop). -/
def firstOpt {α : Type} : List (Option α) → Option α
  | [] => none
  | o :: r => o <|> firstOpt r

/-- The system templates the loop of `expandTemplate` actually expands, in
order: a resolvable name contributes its template; an unresolvable name is
skipped except at index 0, where the canonical `"system"` template is
substituted (or the whole resolution fails, mirroring the assertion). -/
def resolveNames (project : Project) : List String → Nat → Option (List PromptTemplate)
  | [], _ => some []
  | name :: rest, i =>
      match project.getTemplate name with
      | some s => (resolveNames project rest (i + 1)).map (fun ss => s :: ss)
      | none =>
          if i > 0 then resolveNames project rest (i + 1)
          else
            match project.getTemplate "system" with
            | some s => (resolveNames project rest (i + 1)).map (fun ss => s :: ss)
            | none => none

/-- The combined system prompt: each resolved system template's expanded
text followed by a line break. -/
def sysTexts (vars : List (String × String)) : List PromptTemplate → String
  | [] => ""
  | s :: r => (callExpander s vars).text ++ "\n" ++ sysTexts vars r

/-! ### Concrete fixtures used by witnesses and counterexamples -/

/-- A minimal `Externals` fixture: identity path resolution, `(f, "..", n)`
resolved as `f ++ "/" ++ n`, and the given extractor and file system. -/
def extFix (extr : String → List (String × String)) (fs : String → Option String) :
    Externals :=
  ⟨extr, fun _ => "", fun _ => (0, 0), fun p => p, fun f n => f ++ "/" ++ n, fs⟩

def sysT0 : PromptTemplate := { id := "system", title := "S", jsSource := "", jsOps := [] }

def proj0 : Project := ⟨[sysT0], ⟨none⟩⟩

def frag0 : Fragment := ⟨"/p/doc.md", [], (3, 0), []⟩

def vars0 : List (String × String) := [("error", "!ERR!")]

def tmpl0 : PromptTemplate :=
  { id := "main", title := "Main", jsSource := "", jsOps := [.emit [.lit "hi"]] }

/-- A main template whose script throws. -/
def tmplBad : PromptTemplate :=
  { id := "bad", title := "Bad", jsSource := "", jsOps := [.throwErr "Error" "kaput"] }

def junkER : ExpandResult := ⟨"", "", "", false, "", 0, 0, ""⟩

/-- The expansion of the plain fixture run (a `some`; the default is never
taken). -/
def er0 : ExpandResult := (expandTemplate proj0 tmpl0 frag0 vars0).getD junkER

/-- The expansion of the failing fixture run. -/
def er7 : ExpandResult := (expandTemplate proj0 tmplBad frag0 vars0).getD junkER

/-- C5 counterexample fixture: nobody defines a model, but the project
configuration does. -/
def c5proj : Project := ⟨[sysT0], ⟨some "custom-model"⟩⟩

/-- C5 witness fixture: the system template defines model `"X"`. -/
def c5wSys : PromptTemplate :=
  { id := "system", title := "S", jsSource := "", jsOps := [], model := some "X" }

def c5wproj : Project := ⟨[c5wSys], ⟨none⟩⟩

def c5wER : ExpandResult := (expandTemplate c5wproj tmpl0 frag0 vars0).getD junkER

/-- C10 fixture: a system template that reads an unbound variable and then
throws. -/
def c10sysT : PromptTemplate :=
  { id := "system", title := "S", jsSource := "",
    jsOps := [.emit [.var "nope"], .throwErr "Error" "sysboom"] }

def c10proj : Project := ⟨[c10sysT], ⟨none⟩⟩

def c10ER : ExpandResult := (expandTemplate c10proj tmpl0 frag0 vars0).getD junkER

/-- C6 fixture: a log op runs first, then a segment whose body carries the
marker mid-text with no following line break (the claim's "marker followed
by boom" shape). -/
def c6tmpl : PromptTemplate :=
  { id := "t6", title := "T6", jsSource := "",
    jsOps := [.log "starting", .emit [.lit "good text !ERR!boom"]] }

def c6vars : List (String × String) := [("error", "!ERR!")]

def c8tmpl : PromptTemplate :=
  { id := "t8", title := "T8", jsSource := "",
    jsOps := [.emit [.lit "A", .var "missing"], .log "L"] }

def c8vars : List (String × String) := [("error", "!ERR!")]

/-! ### Basic lemmas about the string primitives -/

theorem toList_append (a b : String) : (a ++ b).toList = a.toList ++ b.toList := by
  cases a; cases b; rfl

theorem isPrefixOf_self_append (m r : List Char) : m.isPrefixOf (m ++ r) = true := by
  rw [List.isPrefixOf_iff_prefix]
  exact List.prefix_append m r

theorem splitAtSub_self_append (m r : List Char) :
    splitAtSub m (m ++ r) = some ([], r) := by
  rcases hl : m ++ r with _ | ⟨c, t⟩
  · obtain ⟨rfl, rfl⟩ := List.append_eq_nil.mp hl
    rfl
  · have hp : m.isPrefixOf (c :: t) = true := by
      rw [← hl]; exact isPrefixOf_self_append m r
    have hd : (c :: t).drop m.length = r := by
      rw [← hl]; exact List.drop_left m r
    simp only [splitAtSub, hp, if_true, hd]

theorem takeWhile_append_cons_of (p : Char → Bool) (a : List Char) (c : Char)
    (b : List Char) (ha : ∀ x ∈ a, p x = true) (hc : p c = false) :
    (a ++ c :: b).takeWhile p = a := by
  induction a with
  | nil => simp [List.takeWhile_cons, hc]
  | cons x xs ih =>
      have hx := ha x (by simp)
      simp only [List.cons_append, List.takeWhile_cons, hx, if_true]
      rw [ih (fun y hy => ha y (by simp [hy]))]

/-! ### Lemmas about script execution -/

theorem execOps_completes (vars : List (String × String)) :
    ∀ ops st, noThrow ops = true → markerFree vars ops = true →
      (execOps vars (theMarker vars) ops st).2 = none
        ∧ (execOps vars (theMarker vars) ops st).1.errors
            = st.errors ++ opsErrors vars ops := by
  intro ops
  induction ops with
  | nil =>
      intro st _ _
      exact ⟨rfl, (String.append_empty st.errors).symm⟩
  | cons op rest ih =>
      intro st h1 h2
      simp only [noThrow, List.all_cons, Bool.and_eq_true] at h1
      simp only [markerFree, List.all_cons, Bool.and_eq_true] at h2
      cases op with
      | log m =>
          simp only [execOps, opsErrors]
          exact ih _ h1.2 h2.2
      | throwErr n m => simp at h1
      | emit parts =>
          have hnone : splitAtSub (theMarker vars).toList
              (renderBody vars parts).toList = none :=
            Option.isNone_iff_eq_none.mp h2.1
          simp only [execOps, hnone]
          obtain ⟨ha, hb⟩ := ih
            { st with errors := st.errors ++ renderErrs vars parts,
                      promptText := st.promptText
                        ++ trimNewlines (renderBody vars parts) ++ "\n\n" }
            h1.2 h2.2
          refine ⟨ha, ?_⟩
          rw [hb]
          simp [opsErrors, String.append_assoc]

/-- A script prefix that runs without throwing composes with the rest of
the script. -/
theorem execOps_append_of_none (vars : List (String × String)) (marker : String) :
    ∀ ops1 rest st, (execOps vars marker ops1 st).2 = none →
      execOps vars marker (ops1 ++ rest) st
        = execOps vars marker rest (execOps vars marker ops1 st).1 := by
  intro ops1
  induction ops1 with
  | nil => intro rest st _; rfl
  | cons op ops ih =>
      intro rest st h
      cases op with
      | log m =>
          simp only [execOps, List.cons_append] at h ⊢
          exact ih rest _ h
      | throwErr n m =>
          simp only [execOps] at h
          simp at h
      | emit parts =>
          simp only [execOps, List.cons_append] at h ⊢
          revert h
          cases hsp : splitAtSub marker.toList (renderBody vars parts).toList with
          | some p =>
              intro h
              simp at h
          | none =>
              intro h
              exact ih rest _ h

/-! ### C6: the error marker aborts expansion with the extracted message -/

/-- C6: if a text segment emitted by the template script contains the
designated error-marker value — anywhere in the body, with or without a
following line break, with any clean ops emitted before it — expansion
fails: the text after the first occurrence of the marker up to the next
line break (`suf.takeWhile`, the embedding of
`slice(idx + error.length).replace(/\n[^]*/, "")`) is extracted as the
error message, the success flag is false, and the error accumulator ends
with (hence contains) that message. -/
theorem c6_error_marker_fails_expansion
    (tmpl : PromptTemplate) (vars : List (String × String))
    (marker : String) (parts : List TextPart) (ops1 ops2 : List ScriptOp)
    (pre suf : List Char)
    (hm : lookupVar vars "error" = some marker)
    (hops : tmpl.jsOps = ops1 ++ ScriptOp.emit parts :: ops2)
    (h1 : noThrow ops1 = true) (h2 : markerFree vars ops1 = true)
    (hhit : splitAtSub marker.toList (renderBody vars parts).toList
      = some (pre, suf)) :
    (callExpander tmpl vars).success = false
    ∧ (callExpander tmpl vars).errors
        = opsErrors vars ops1 ++ renderErrs vars parts
            ++ errLine "Error" (String.mk (suf.takeWhile (fun c => c != '\n')))
    ∧ ∃ a b, (callExpander tmpl vars).errors
        = a ++ String.mk (suf.takeWhile (fun c => c != '\n')) ++ b := by
  have hmk : theMarker vars = marker := by
    rw [theMarker, hm]; rfl
  obtain ⟨hnone, herr⟩ := execOps_completes vars ops1 ⟨"", "", ""⟩ h1 h2
  rw [hmk] at hnone herr
  have hfull : execOps vars marker tmpl.jsOps ⟨"", "", ""⟩
      = (⟨(execOps vars marker ops1 ⟨"", "", ""⟩).1.promptText
            ++ trimNewlines (renderBody vars parts) ++ "\n\n",
          (execOps vars marker ops1 ⟨"", "", ""⟩).1.errors
            ++ renderErrs vars parts,
          (execOps vars marker ops1 ⟨"", "", ""⟩).1.logs⟩,
         some ("Error", String.mk (suf.takeWhile (fun c => c != '\n')))) := by
    rw [hops, execOps_append_of_none vars marker ops1 _ _ hnone]
    simp only [execOps, hhit]
  have herrs : (callExpander tmpl vars).errors
      = opsErrors vars ops1 ++ renderErrs vars parts
          ++ errLine "Error" (String.mk (suf.takeWhile (fun c => c != '\n'))) := by
    simp only [callExpander, hmk, hfull]
    rw [herr, String.empty_append]
  refine ⟨by simp only [callExpander, hmk, hfull], herrs,
    opsErrors vars ops1 ++ renderErrs vars parts ++ ("-  " ++ "Error" ++ ": "),
    "\n", ?_⟩
  rw [herrs]
  simp [errLine, String.append_assoc]

/-- Witness for C6: a script that first logs, then emits
`"good text !ERR!boom"` — the marker mid-body with no following line
break — fails with `"boom"` in the error accumulator. -/
theorem c6_error_marker_witness :
    (callExpander c6tmpl c6vars).success = false ∧
      (callExpander c6tmpl c6vars).errors ≠ "" ∧
      ∃ a b, (callExpander c6tmpl c6vars).errors = a ++ "boom" ++ b := by
  obtain ⟨ha, hb, hc⟩ := c6_error_marker_fails_expansion c6tmpl c6vars "!ERR!"
    [.lit "good text !ERR!boom"] [.log "starting"] []
    ("good text ".toList) ("boom".toList)
    rfl rfl (by decide) (by decide) (by decide)
  have hmsg : String.mk ("boom".toList.takeWhile (fun c => c != '\n')) = "boom" := by
    decide
  refine ⟨ha, ?_, ?_⟩
  · rw [hb, hmsg]
    decide
  · obtain ⟨a, b, hab⟩ := hc
    rw [hmsg] at hab
    exact ⟨a, b, hab⟩

/-! ### C8: unbound variable reads are recorded but never abort -/

theorem lookupVar_append (vars ws : List (String × String)) (k : String) :
    lookupVar (vars ++ ws) k = (lookupVar vars k).or (lookupVar ws k) := by
  simp only [lookupVar, List.find?_append]
  cases List.find? (fun p => p.1 == k) vars <;> simp

theorem envGet_val_append_default (vars : List (String × String)) (name k : String) :
    (envGet (vars ++ [(name, "")]) k).1 = (envGet vars k).1 := by
  simp only [envGet, lookupVar_append]
  cases h : lookupVar vars k with
  | some v => simp
  | none =>
      by_cases hk : name = k
      · subst hk
        simp [lookupVar]
      · simp [lookupVar, hk]

theorem theMarker_append_irrelevant (vars : List (String × String)) (name : String)
    (hne : name ≠ "error") :
    theMarker (vars ++ [(name, "")]) = theMarker vars := by
  simp only [theMarker, lookupVar_append]
  cases h : lookupVar vars "error" with
  | some m => simp
  | none => simp [lookupVar, hne]

theorem renderBody_congr (vars vars' : List (String × String))
    (hval : ∀ k, (envGet vars' k).1 = (envGet vars k).1) :
    ∀ parts, renderBody vars' parts = renderBody vars parts := by
  intro parts
  induction parts with
  | nil => rfl
  | cons p ps ih =>
      cases p with
      | lit s => simp [renderBody, partVal, ih]
      | var n => simp [renderBody, partVal, hval n, ih]

theorem execOps_congr (vars vars' : List (String × String)) (marker : String)
    (hval : ∀ k, (envGet vars' k).1 = (envGet vars k).1) :
    ∀ ops pt lg e e',
      (execOps vars' marker ops ⟨pt, e', lg⟩).1.promptText
          = (execOps vars marker ops ⟨pt, e, lg⟩).1.promptText
        ∧ (execOps vars' marker ops ⟨pt, e', lg⟩).1.logs
          = (execOps vars marker ops ⟨pt, e, lg⟩).1.logs
        ∧ (execOps vars' marker ops ⟨pt, e', lg⟩).2
          = (execOps vars marker ops ⟨pt, e, lg⟩).2 := by
  intro ops
  induction ops with
  | nil => intro pt lg e e'; exact ⟨rfl, rfl, rfl⟩
  | cons op rest ih =>
      intro pt lg e e'
      cases op with
      | log m =>
          simp only [execOps]
          exact ih pt (lg ++ m ++ "\n") e e'
      | throwErr n m => simp [execOps]
      | emit parts =>
          simp only [execOps, renderBody_congr vars vars' hval parts]
          cases h : splitAtSub marker.toList (renderBody vars parts).toList with
          | some p => simp [h]
          | none =>
              simp only [h]
              exact ih _ _ _ _

theorem callExpander_congr (tmpl : PromptTemplate)
    (vars vars' : List (String × String))
    (hval : ∀ k, (envGet vars' k).1 = (envGet vars k).1)
    (hmk : theMarker vars' = theMarker vars) :
    (callExpander tmpl vars').text = (callExpander tmpl vars).text
      ∧ (callExpander tmpl vars').success = (callExpander tmpl vars).success := by
  obtain ⟨h1, _h2, h3⟩ :=
    execOps_congr vars vars' (theMarker vars) hval tmpl.jsOps "" "" "" ""
  rcases h : (execOps vars (theMarker vars) tmpl.jsOps ⟨"", "", ""⟩).2 with _ | e
  · rw [h] at h3
    simp only [callExpander, hmk, h, h3]
    exact ⟨h1, trivial⟩
  · rw [h] at h3
    simp only [callExpander, hmk, h, h3]
    exact ⟨h1, trivial⟩

theorem renderErrs_append (vars : List (String × String)) (l₁ l₂ : List TextPart) :
    renderErrs vars (l₁ ++ l₂) = renderErrs vars l₁ ++ renderErrs vars l₂ := by
  induction l₁ with
  | nil => simp [renderErrs, String.empty_append]
  | cons p ps ih => simp [renderErrs, ih, String.append_assoc]

theorem opsErrors_append (vars : List (String × String)) (l₁ l₂ : List ScriptOp) :
    opsErrors vars (l₁ ++ l₂) = opsErrors vars l₁ ++ opsErrors vars l₂ := by
  induction l₁ with
  | nil => simp [opsErrors, String.empty_append]
  | cons op ops ih =>
      cases op with
      | emit parts => simp [opsErrors, ih, String.append_assoc]
      | log m => simp [opsErrors, ih]
      | throwErr n m => simp [opsErrors, ih]

/-- C8: a read of an unbound `env.<name>` yields the empty string together
with the one-line error `-  \x60env.<name>\x60 not defined`; binding `name`
to the empty string instead changes neither the emitted prompt text nor
the success flag (the read "evaluates to the empty string and expansion
continues"); and for a script that neither throws nor hits the error
marker, expansion succeeds while every unbound read leaves its error line
inside the error accumulator. -/
theorem c8_unbound_read_nonfatal
    (tmpl : PromptTemplate) (vars : List (String × String)) (name : String)
    (hnb : lookupVar vars name = none) (hne : name ≠ "error") :
    envGet vars name = ("", "-  `env." ++ name ++ "` not defined\n")
    ∧ (callExpander tmpl (vars ++ [(name, "")])).text
        = (callExpander tmpl vars).text
    ∧ (callExpander tmpl (vars ++ [(name, "")])).success
        = (callExpander tmpl vars).success
    ∧ (noThrow tmpl.jsOps = true → markerFree vars tmpl.jsOps = true →
        (callExpander tmpl vars).success = true
        ∧ ∀ parts p1 p2, ScriptOp.emit parts ∈ tmpl.jsOps →
            parts = p1 ++ TextPart.var name :: p2 →
            ∃ a b, (callExpander tmpl vars).errors
              = a ++ ("-  `env." ++ name ++ "` not defined\n") ++ b) := by
  have hval := envGet_val_append_default vars name
  have hmk := theMarker_append_irrelevant vars name hne
  obtain ⟨htext, hsucc⟩ := callExpander_congr tmpl vars (vars ++ [(name, "")]) hval hmk
  refine ⟨by simp [envGet, hnb], htext, hsucc, ?_⟩
  intro h1 h2
  obtain ⟨hnone, herr⟩ := execOps_completes vars tmpl.jsOps ⟨"", "", ""⟩ h1 h2
  have hsucc2 : (callExpander tmpl vars).success = true := by
    simp only [callExpander, hnone]
  have herrs : (callExpander tmpl vars).errors = opsErrors vars tmpl.jsOps := by
    simp only [callExpander, hnone]
    rw [herr]
    exact String.empty_append _
  refine ⟨hsucc2, ?_⟩
  intro parts p1 p2 hmem hparts
  obtain ⟨o1, o2, ho⟩ := List.append_of_mem hmem
  refine ⟨opsErrors vars o1 ++ renderErrs vars p1,
          renderErrs vars p2 ++ opsErrors vars o2, ?_⟩
  rw [herrs, ho, opsErrors_append]
  have hline : partErr vars (TextPart.var name)
      = "-  `env." ++ name ++ "` not defined\n" := by
    simp [partErr, envGet, hnb]
  rw [hparts]
  simp only [opsErrors, renderErrs_append, renderErrs, hline]
  simp [String.append_assoc]

/-- Witness for C8: the script of `c8tmpl` reads the unbound `env.missing`;
expansion succeeds, its text is the one obtained with `missing` bound to
the empty string, and the error line sits in the accumulator. -/
theorem c8_unbound_read_witness :
    (callExpander c8tmpl c8vars).success = true
    ∧ (callExpander c8tmpl (c8vars ++ [("missing", "")])).text
        = (callExpander c8tmpl c8vars).text
    ∧ ∃ a b, (callExpander c8tmpl c8vars).errors
        = a ++ ("-  `env." ++ "missing" ++ "` not defined\n") ++ b := by
  obtain ⟨_h1, h2, _h3, h4⟩ :=
    c8_unbound_read_nonfatal c8tmpl c8vars "missing" rfl (by decide)
  obtain ⟨hs, hc⟩ := h4 (by decide) (by decide)
  exact ⟨hs, h2, hc [.lit "A", .var "missing"] [.lit "A"] [] (by decide) rfl⟩

/-! ### C5 / C10: system-loop characterization -/

theorem optOrElse_assoc {α : Type} (a b c : Option α) :
    ((a <|> b) <|> c) = (a <|> (b <|> c)) := by
  cases a <;> rfl

theorem sysLoop_spec (project : Project) (vars : List (String × String)) :
    ∀ names i st st', sysLoop project vars names i st = some st' →
      ∃ ss, resolveNames project names i = some ss
        ∧ st'.model = (st.model <|> firstOpt (ss.map PromptTemplate.model))
        ∧ st'.temperature
            = (st.temperature <|> firstOpt (ss.map PromptTemplate.temperature))
        ∧ st'.max_tokens
            = (st.max_tokens <|> firstOpt (ss.map PromptTemplate.maxTokens))
        ∧ st'.systemText = st.systemText ++ sysTexts vars ss := by
  intro names
  induction names with
  | nil =>
      intro i st st' h
      simp only [sysLoop, Option.some.injEq] at h
      subst h
      refine ⟨[], rfl, ?_, ?_, ?_, ?_⟩ <;>
        simp [firstOpt, sysTexts, String.append_empty]
  | cons name rest ih =>
      intro i st st' h
      simp only [sysLoop] at h
      cases hg : project.getTemplate name with
      | some system =>
          rw [hg] at h
          obtain ⟨ss, hres, hm, ht, hx, hs⟩ := ih (i + 1) (sysBody vars name system st) st' h
          refine ⟨system :: ss, ?_, ?_, ?_, ?_, ?_⟩
          · simp [resolveNames, hg, hres]
          · rw [hm]
            simp only [sysBody, List.map_cons, firstOpt, optOrElse_assoc]
          · rw [ht]
            simp only [sysBody, List.map_cons, firstOpt, optOrElse_assoc]
          · rw [hx]
            simp only [sysBody, List.map_cons, firstOpt, optOrElse_assoc]
          · rw [hs]
            simp only [sysBody, sysTexts, String.append_assoc]
      | none =>
          rw [hg] at h
          by_cases hi : i > 0
          · rw [if_pos hi] at h
            obtain ⟨ss, hres, hm, ht, hx, hs⟩ := ih (i + 1) _ st' h
            exact ⟨ss, by simp [resolveNames, hg, hi, hres], hm, ht, hx, hs⟩
          · rw [if_neg hi] at h
            cases hg2 : project.getTemplate "system" with
            | some system =>
                rw [hg2] at h
                obtain ⟨ss, hres, hm, ht, hx, hs⟩ := ih (i + 1) _ st' h
                refine ⟨system :: ss, ?_, ?_, ?_, ?_, ?_⟩
                · simp [resolveNames, hg, hi, hg2, hres]
                · rw [hm]
                  simp only [sysBody, List.map_cons, firstOpt, optOrElse_assoc]
                · rw [ht]
                  simp only [sysBody, List.map_cons, firstOpt, optOrElse_assoc]
                · rw [hx]
                  simp only [sysBody, List.map_cons, firstOpt, optOrElse_assoc]
                · rw [hs]
                  simp only [sysBody, sysTexts, String.append_assoc]
            | none =>
                rw [hg2] at h
                exact absurd h (by simp)

/-- Full characterization of `expandTemplate`'s outputs in terms of the
main expansion and the resolved system templates. -/
theorem expandTemplate_spec (project : Project) (template : PromptTemplate)
    (fragment : Fragment) (vars : List (String × String)) (er : ExpandResult)
    (h : expandTemplate project template fragment vars = some er) :
    ∃ ss, resolveNames project (systemsList template) 0 = some ss
      ∧ er.model = ((template.model <|> firstOpt (ss.map PromptTemplate.model))
            <|> project.coarchJson.model).getD defaultModel
      ∧ er.temperature = (template.temperature
            <|> firstOpt (ss.map PromptTemplate.temperature)).getD defaultTemperature
      ∧ er.max_tokens = (template.maxTokens
            <|> firstOpt (ss.map PromptTemplate.maxTokens)).getD defaultMaxTokens
      ∧ er.systemText = sysTexts vars ss
      ∧ er.success = (callExpander template vars).success
      ∧ er.errors = (callExpander template vars).errors := by
  simp only [expandTemplate] at h
  cases hsl : sysLoop project vars (systemsList template) 0
      ⟨expandTraceBase template fragment vars, "",
        template.model, template.temperature, template.maxTokens⟩ with
  | none => rw [hsl] at h; exact absurd h (by simp)
  | some st =>
      rw [hsl] at h
      simp only [Option.some.injEq] at h
      subst h
      obtain ⟨ss, hres, hm, ht, hx, hs⟩ :=
        sysLoop_spec project vars (systemsList template) 0 _ st hsl
      refine ⟨ss, hres, ?_, ?_, ?_, ?_, rfl, rfl⟩
      · rw [hm]
      · rw [ht]
      · rw [hx]
      · rw [hs]
        exact String.empty_append _

set_option maxRecDepth 10000 in
/-- C5 counterexample: with no model on the main template and none on any
system template, the resolved model is the project configuration's
`coarchJson.model` (`"custom-model"`), not the fixed baseline default
`"gpt-4"` — refuting "otherwise a fixed global default". -/
theorem c5_project_model_beats_default :
    tmpl0.model = none
    ∧ (∀ t ∈ c5proj.templates, t.model = none)
    ∧ (expandTemplate c5proj tmpl0 frag0 vars0).map ExpandResult.model
        = some "custom-model"
    ∧ "custom-model" ≠ defaultModel := by
  refine ⟨rfl, by decide, by decide, by decide⟩

/-- C5 (amended): the resolved model, temperature and max-token values
follow the precedence: the main template's explicit value; else the first
non-`undefined` value while scanning the resolved system templates in
order; else — for the model only — the project configuration's model;
else the fixed global defaults (`"gpt-4"`, `0.2`, `800`). -/
theorem c5_parameter_precedence (project : Project) (template : PromptTemplate)
    (fragment : Fragment) (vars : List (String × String)) (er : ExpandResult)
    (h : expandTemplate project template fragment vars = some er) :
    ∃ ss, resolveNames project (systemsList template) 0 = some ss
      ∧ er.model = ((template.model <|> firstOpt (ss.map PromptTemplate.model))
            <|> project.coarchJson.model).getD defaultModel
      ∧ er.temperature = (template.temperature
            <|> firstOpt (ss.map PromptTemplate.temperature)).getD defaultTemperature
      ∧ er.max_tokens = (template.maxTokens
            <|> firstOpt (ss.map PromptTemplate.maxTokens)).getD defaultMaxTokens := by
  obtain ⟨ss, hres, hm, ht, hx, _⟩ := expandTemplate_spec project template fragment vars er h
  exact ⟨ss, hres, hm, ht, hx⟩

set_option maxRecDepth 10000 in
/-- Witness for C5: the main template defines no model, the system template
defines `"X"`; the resolved model is `"X"`. -/
theorem c5_parameter_precedence_witness :
    (∃ ss, resolveNames c5wproj (systemsList tmpl0) 0 = some ss
      ∧ c5wER.model = ((tmpl0.model <|> firstOpt (ss.map PromptTemplate.model))
            <|> c5wproj.coarchJson.model).getD defaultModel
      ∧ c5wER.temperature = (tmpl0.temperature
            <|> firstOpt (ss.map PromptTemplate.temperature)).getD defaultTemperature
      ∧ c5wER.max_tokens = (tmpl0.maxTokens
            <|> firstOpt (ss.map PromptTemplate.maxTokens)).getD defaultMaxTokens)
    ∧ c5wER.model = "X" ∧ c5wER.temperature = defaultTemperature
    ∧ c5wER.max_tokens = defaultMaxTokens :=
  ⟨c5_parameter_precedence c5wproj tmpl0 frag0 vars0 c5wER (by decide),
   by decide, by decide, by decide⟩

/-- C10: errors from expanding a system template are silently discarded —
the run's success flag and error accumulator equal those of the main
template's own expansion whatever the system templates do, and each
resolved system template contributes exactly its expanded text followed by
a line break to the combined system prompt. -/
theorem c10_system_errors_discarded (project : Project) (template : PromptTemplate)
    (fragment : Fragment) (vars : List (String × String)) (er : ExpandResult)
    (h : expandTemplate project template fragment vars = some er) :
    ∃ ss, resolveNames project (systemsList template) 0 = some ss
      ∧ er.success = (callExpander template vars).success
      ∧ er.errors = (callExpander template vars).errors
      ∧ er.systemText = sysTexts vars ss := by
  obtain ⟨ss, hres, _, _, _, hs, h1, h2⟩ :=
    expandTemplate_spec project template fragment vars er h
  exact ⟨ss, hres, h1, h2, hs⟩

set_option maxRecDepth 10000 in
/-- Witness for C10: the fixture system template throws and reads an
unbound variable, so its own expansion fails with errors — yet the run's
expansion succeeds with an empty error accumulator. -/
theorem c10_system_errors_discarded_witness :
    (∃ ss, resolveNames c10proj (systemsList tmpl0) 0 = some ss
      ∧ c10ER.success = (callExpander tmpl0 vars0).success
      ∧ c10ER.errors = (callExpander tmpl0 vars0).errors
      ∧ c10ER.systemText = sysTexts vars0 ss)
    ∧ (callExpander c10sysT vars0).success = false
    ∧ (callExpander c10sysT vars0).errors ≠ ""
    ∧ c10ER.success = true ∧ c10ER.errors = "" :=
  ⟨c10_system_errors_discarded c10proj tmpl0 frag0 vars0 c10ER (by decide),
   by decide, by decide, by decide, by decide⟩

/-! ### C7: failed expansion short-circuits before the completion call -/

/-- C7: when expansion of the main template fails, `runTemplate` returns a
result with empty edits, empty fileEdits, and a text that is the
"template failed" message whose body is the accumulated trace — for every
transport `chat` (so no completion request can influence the result) and
with no partial-result callback issued. -/
theorem c7_failed_expansion_short_circuits (ext : Externals) (project : Project)
    (template : PromptTemplate) (fragment : Fragment)
    (vars : List (String × String))
    (chat : ChatRequest → Except ChatError String) (aborted : Bool)
    (er : ExpandResult)
    (hexp : expandTemplate project template fragment vars = some er)
    (hfail : er.success = false) :
    runTemplate ext project template fragment vars chat aborted
      = some ⟨RunOutcome.result ⟨[], [], finalPromptTrace er,
          "# Template failed\nSee info below.\n" ++ finalPromptTrace er, none⟩, []⟩ := by
  simp only [runTemplate, hexp]
  simp [hfail]

set_option maxRecDepth 10000 in
/-- Witness for C7: the fixture template whose script throws yields the
"template failed" result, independently of the transport. -/
theorem c7_failed_expansion_witness :
    runTemplate (extFix (fun _ => []) (fun _ => none)) proj0 tmplBad frag0 vars0
        (fun _ => Except.ok "RAW") false
      = some ⟨RunOutcome.result ⟨[], [], finalPromptTrace er7,
          "# Template failed\nSee info below.\n" ++ finalPromptTrace er7, none⟩, []⟩ :=
  c7_failed_expansion_short_circuits _ proj0 tmplBad frag0 vars0 _ false er7
    (by decide) (by decide)

/-! ### C3: the returned `text` field is the raw completion text -/

/-- C3: on a successful run, the `text` field of the returned result equals
the raw completion text exactly as the chat transport returned it — the
single-leftover selection, trim and fence-stripping reassign only the
local variable after the result object's `text` was set. -/
theorem c3_result_text_is_raw_completion (ext : Externals) (project : Project)
    (template : PromptTemplate) (fragment : Fragment)
    (vars : List (String × String))
    (chat : ChatRequest → Except ChatError String) (aborted : Bool)
    (er : ExpandResult) (raw : String)
    (hexp : expandTemplate project template fragment vars = some er)
    (hs : er.success = true)
    (hchat : chat (mkRequest er) = Except.ok raw) :
    ∃ out res, runTemplate ext project template fragment vars chat aborted = some out
      ∧ out.outcome = RunOutcome.result res
      ∧ res.text = raw := by
  simp only [runTemplate, hexp, hs]
  rw [hchat]
  exact ⟨_, _, rfl, rfl, rfl⟩

set_option maxRecDepth 10000 in
/-- Witness for C3: a transport answering `"RAW"` yields a result whose
`text` field is `"RAW"`. -/
theorem c3_result_text_witness :
    ∃ out res, runTemplate (extFix (fun _ => [("Foo", "bar")]) (fun _ => none))
        proj0 tmpl0 frag0 vars0 (fun _ => Except.ok "RAW") false = some out
      ∧ out.outcome = RunOutcome.result res
      ∧ res.text = "RAW" :=
  c3_result_text_is_raw_completion _ proj0 tmpl0 frag0 vars0 _ false er0 "RAW"
    (by decide) (by decide) rfl

/-! ### C4: callbacks on transport failure -/

/-- C4 (amended): when the completion request throws, the exception is
re-raised to the caller and the partial-result callback is invoked with the
trace-so-far for a structured request error and for a cancellation detected
via the abort signal, but NOT for any other exception; and the run issues
at most the single resolved request (transports agreeing there give
identical runs — no retry). -/
theorem c4_transport_error_callbacks (ext : Externals) (project : Project)
    (template : PromptTemplate) (fragment : Fragment)
    (vars : List (String × String))
    (chat : ChatRequest → Except ChatError String) (aborted : Bool)
    (er : ExpandResult) (e : ChatError)
    (hexp : expandTemplate project template fragment vars = some er)
    (hs : er.success = true)
    (hchat : chat (mkRequest er) = Except.error e) :
    (runTemplate ext project template fragment vars chat aborted
      = some ⟨RunOutcome.thrown e,
          ⟨[], [], finalPromptTrace er, "> Waiting for response...", none⟩ ::
          (match e with
           | ChatError.requestError status statusText body =>
               [⟨[], [], finalPromptTrace er ++ requestErrorTrace status statusText body,
                 "Request error", none⟩]
           | ChatError.other _ _ =>
               if aborted then
                 [⟨[], [], finalPromptTrace er ++ cancelTrace, "Request cancelled", none⟩]
               else [])⟩)
    ∧ ∀ chat2, chat2 (mkRequest er) = chat (mkRequest er) →
        runTemplate ext project template fragment vars chat2 aborted
          = runTemplate ext project template fragment vars chat aborted := by
  constructor
  · cases e with
    | requestError status statusText body =>
        simp only [runTemplate, hexp, hs, hchat]
        simp
    | other n m =>
        by_cases ha : aborted <;>
          · simp only [runTemplate, hexp, hs, hchat]
            simp [ha]
  · intro chat2 hc
    simp only [runTemplate, hexp, hc]

set_option maxRecDepth 10000 in
/-- C4 counterexample: for a transport failure that is neither a structured
request error nor a cancellation, the exception is re-raised with no
callback issued in the catch — the only recorded callback is the
pre-request "Waiting for response" one, refuting "in all three failure
cases". -/
theorem c4_other_error_no_callback :
    (runTemplate (extFix (fun _ => []) (fun _ => none)) proj0 tmpl0 frag0 vars0
        (fun _ => Except.error (ChatError.other "TypeError" "boom")) false).map
        (fun o => (o.outcome, o.infoCbs.map FragmentTransformResponse.text))
      = some (RunOutcome.thrown (ChatError.other "TypeError" "boom"),
              ["> Waiting for response..."]) := by decide

set_option maxRecDepth 10000 in
/-- Witness for C4 (amended), at a structured request error: both callbacks
occur, the second carrying the trace extended with the request-error
section. -/
theorem c4_transport_error_witness :
    runTemplate (extFix (fun _ => []) (fun _ => none)) proj0 tmpl0 frag0 vars0
        (fun _ => Except.error
          (ChatError.requestError 429 "Too Many Requests" (some ⟨"rate", "tokens", "429"⟩)))
        false
      = some ⟨RunOutcome.thrown
            (ChatError.requestError 429 "Too Many Requests" (some ⟨"rate", "tokens", "429"⟩)),
          [⟨[], [], finalPromptTrace er0, "> Waiting for response...", none⟩,
           ⟨[], [], finalPromptTrace er0
              ++ requestErrorTrace 429 "Too Many Requests" (some ⟨"rate", "tokens", "429"⟩),
             "Request error", none⟩]⟩ :=
  (c4_transport_error_callbacks _ proj0 tmpl0 frag0 vars0 _ false er0
    (ChatError.requestError 429 "Too Many Requests" (some ⟨"rate", "tokens", "429"⟩))
    (by decide) (by decide) rfl).1

/-! ### C1 / C2: the post-processed text never reaches the returned result -/

set_option maxRecDepth 10000 in
/-- C1 (evaluation of the code at the failing input): with extracted
variables exactly `[("Foo", "bar")]` (no `File `/`SUMMARY` entries), the
single-leftover selection of the source computes `"bar"` — but only into
the local variable (`finalizeText`); the returned result's `text` field is
the raw completion text `"RAW-OUTPUT"`, not `"bar"`. -/
theorem c1_single_leftover_not_propagated :
    (runTemplate (extFix (fun _ => [("Foo", "bar")]) (fun _ => none)) proj0 tmpl0
        frag0 vars0 (fun _ => Except.ok "RAW-OUTPUT") false).map
        (fun o => match o.outcome with
          | RunOutcome.result r => some r.text
          | RunOutcome.thrown _ => none)
      = some (some "RAW-OUTPUT")
    ∧ finalizeText "RAW-OUTPUT" [("Foo", "bar")] = "bar"
    ∧ "RAW-OUTPUT" ≠ "bar" := by
  refine ⟨by decide, by decide, by decide⟩

set_option maxRecDepth 10000 in
/-- C2 (evaluation of the code at the failing input): for the completion
text `"\x60\x60\x60js\nconsole.log(1)\n\x60\x60\x60"` with no extracted
entries, the fence-stripping of the source computes `"console.log(1)"` —
but only into the local variable (`finalizeText`); the returned result's
`text` field keeps the fenced raw completion. -/
theorem c2_fence_strip_not_propagated :
    (runTemplate (extFix (fun _ => []) (fun _ => none)) proj0 tmpl0 frag0 vars0
        (fun _ => Except.ok "```js\nconsole.log(1)\n```") false).map
        (fun o => match o.outcome with
          | RunOutcome.result r => some r.text
          | RunOutcome.thrown _ => none)
      = some (some "```js\nconsole.log(1)\n```")
    ∧ finalizeText "```js\nconsole.log(1)\n```" [] = "console.log(1)"
    ∧ "```js\nconsole.log(1)\n```" ≠ "console.log(1)" := by
  refine ⟨by decide, by decide, by decide⟩

/-! ### C9: `File` entries without an existing target become create-edits -/

/-- C9: processing an extracted entry named `File <n>` whose resolved
target (name after the prefix, trimmed, leading `./` stripped, resolved
against the fragment's file) does not exist appends exactly one
create-edit with the overwrite flag carrying the entry's text, sets a
file-edit record with an absent before-content, removes the entry from the
extracted variable set, and queues a link when the file was not already
referenced. -/
theorem c9_missing_file_creates_edit (ext : Externals) (fragment : Fragment)
    (st : ExtractState) (name val rest : String)
    (hname : name = "File " ++ rest)
    (hmiss : ext.fs (ext.resolvePathRel fragment.filename (stripTarget name)) = none) :
    processEntry ext fragment st (name, val) =
      (let n := stripTarget name
       let fn := ext.resolvePathRel fragment.filename n
       let curr := (fragment.references.find?
         (fun r => ext.resolvePath r.filename == fn)).map Reference.filename
       let st1 : ExtractState :=
         { st with
           vars := removeKey st.vars name,
           fileEdits := setFileEdit st.fileEdits fn ⟨none, val⟩,
           edits := st.edits ++ [Edits.createfile ("Create " ++ fn) fn val true] }
       if jsFalsyS curr && ext.resolvePath fragment.filename != fn then
         { st1 with links := st1.links ++ ["-   [" ++ n ++ "](./" ++ n ++ ")"] }
       else st1) := by
  have hstart : jsStartsWith name "File " = true := by
    rw [hname, jsStartsWith, toList_append]
    exact isPrefixOf_self_append _ _
  have hnotsum : (name == "SUMMARY") = false := by
    rw [hname]
    apply beq_eq_false_iff_ne.mpr
    intro hcontra
    have h1 := congrArg String.toList hcontra
    rw [toList_append] at h1
    have h2 : ("File " : String).toList = ['F', 'i', 'l', 'e', ' '] := rfl
    have h3 : ("SUMMARY" : String).toList = ['S', 'U', 'M', 'M', 'A', 'R', 'Y'] := rfl
    rw [h2, h3] at h1
    simp at h1
  simp only [processEntry, hstart, hmiss, hnotsum, if_true]
  simp

/-- Witness for C9: the response entry `File ./a.txt` with body `BODY`
against an empty file system yields exactly one create-edit with overwrite
for the resolved `a.txt`, an absent-before file edit, the link queued, and
an empty surviving variable set. -/
theorem c9_missing_file_witness :
    processEntry (extFix (fun _ => []) (fun _ => none)) frag0
        ⟨[], [], [], none, [("File ./a.txt", "BODY")]⟩ ("File ./a.txt", "BODY")
      = ⟨[Edits.createfile "Create /p/doc.md/a.txt" "/p/doc.md/a.txt" "BODY" true],
         [("/p/doc.md/a.txt", ⟨none, "BODY"⟩)],
         ["-   [a.txt](./a.txt)"], none, []⟩ :=
  (c9_missing_file_creates_edit _ frag0 _ "File ./a.txt" "BODY" "./a.txt"
    (by decide) (by decide)).trans (by decide)

end GenAI
